import Mathlib

/-!
Shallow embedding of `squarespace.py`, a Python client for the Squarespace
order-management REST API, together with proofs of the specified properties.

Python values flowing through the client are JSON-compatible, so we model
them by the inductive type `JValue` (Python `None` is `JValue.null`,
Python `True` is `JValue.bool true`, and so on).  Python exceptions are
modelled by the `PyError` type whose constructors mirror the exception
classes raised in the source (`ValueError`, `NotImplementedError`,
`RuntimeError`, `SquarespaceError`, plus the implicit `KeyError` /
`TypeError` / `AttributeError` of the dynamic operations).  Calls to
`logging` are modelled by a trace of structured `LogEntry` values, and the
HTTP layer (the `requests` session) is modelled by an abstract
`Server : HttpRequest → Response`; every client operation additionally
returns the list of HTTP requests it issued, so that claims about which
network calls happen are statable.
-/

set_option autoImplicit false

/-- JSON-compatible Python values. -/
inductive JValue where
  | null
  | bool (b : Bool)
  | num (n : Int)
  | str (s : String)
  | arr (l : List JValue)
  | obj (l : List (String × JValue))
  deriving Repr

/-- Python exceptions raised (explicitly or implicitly) by the client code. -/
inductive PyError where
  | valueError (fmt : String) (arg : String)
  | notImplementedError (msg : String)
  | runtimeError (msg : String)
  | squarespaceError (msg : String)
  | keyError (key : String)
  | typeError (msg : String)
  | attributeError (msg : String)
  deriving Repr, DecidableEq

/-- One structured record per `logging.*` call in the source. -/
inductive LogEntry where
  | debugGet (url : String) (args : List (String × JValue))
  | debugPost (url : String) (object : JValue)
  | warnStatus (status : Nat)
  | warnText (text : String)
  | errStatus (status : Nat)
  | errUrl (url : String)
  | errText (text : String)
  | warnMaxPages (max_pages : Nat)
  deriving Repr

/-- HTTP method of a request issued through the session. -/
inductive Method where
  | get
  | post
  deriving Repr, DecidableEq

/-- An HTTP request as issued by `self.http.get`/`self.http.post`:
for a GET, `params` holds the query arguments and `body` is `null`;
for a POST, `body` holds the JSON payload and `params` is empty. -/
structure HttpRequest where
  method : Method
  url : String
  params : List (String × JValue)
  body : JValue
  deriving Repr

/-- An HTTP response as seen by `process_request`: the status code, the
parsed JSON body (`request.json()`), the raw text (`request.text`) and the
request URL (`request.url`). -/
structure Response where
  status_code : Nat
  json : JValue
  text : String
  url : String

/-- The remote server, abstracted as a function from requests to responses. -/
def Server : Type := HttpRequest → Response

/-- Python truthiness of a JSON-compatible value (`if x:`). -/
def pyTruthy : JValue → Bool
  | .null => false
  | .bool b => b
  | .num n => n != 0
  | .str s => s != ""
  | .arr l => !l.isEmpty
  | .obj l => !l.isEmpty

/-- Python truthiness of an optional-string argument (default `None`). -/
def optTruthy : Option String → Bool
  | none => false
  | some s => s != ""

/-- Python subscript `v[key]` with a string key: succeeds on a dict with
that key, raises `KeyError` on a dict without it, `TypeError` otherwise. -/
def jSub (v : JValue) (key : String) : Except PyError JValue :=
  match v with
  | .obj l =>
    match l.find? (fun kv => kv.1 == key) with
    | some kv => .ok kv.2
    | none => .error (.keyError key)
  | _ => .error (.typeError "object is not subscriptable")

/-- Python membership test `key in v` for a string key: key lookup on a
dict, element search on a list, substring search on a string, `TypeError`
otherwise. -/
def pyIn (key : String) (v : JValue) : Except PyError Bool :=
  match v with
  | .obj l => .ok (l.any (fun kv => kv.1 == key))
  | .arr l =>
    .ok (l.any (fun x => match x with | .str s => s == key | _ => false))
  | .str s => .ok (decide (List.IsInfix key.data s.data))
  | _ => .error (.typeError "argument is not iterable")

/-- Python `acc.extend(page)` where `acc` is a list: appends the elements
of an iterable (list elements, string characters, dict keys), raises
`TypeError` on a non-iterable. -/
def pyExtend (acc : List JValue) (page : JValue) : Except PyError (List JValue) :=
  match page with
  | .arr l => .ok (acc ++ l)
  | .str s => .ok (acc ++ s.data.map (fun ch => .str (String.mk [ch])))
  | .obj l => .ok (acc ++ l.map (fun kv => .str kv.1))
  | _ => .error (.typeError "object is not iterable")

/-- Update (or insert) a header in the session header mapping,
modelling `self.http.headers.update ...`. -/
def setHeader (hs : List (String × String)) (k v : String) : List (String × String) :=
  if hs.any (fun kv => kv.1 == k) then
    hs.map (fun kv => if kv.1 == k then (k, v) else kv)
  else
    hs ++ [(k, v)]

/-- The mutable state of a `Squarespace` client instance. -/
structure Client where
  api_key : String
  api_baseurl : String
  api_version : String
  tracking_baseurl : String
  _useragent : String
  headers : List (String × String)
  _next_page : JValue
  max_pages : Nat
  deriving Repr

/-- The result of running one client operation: the returned value or the
raised exception, the client state afterwards, the log records emitted and
the HTTP requests issued, all in order. -/
structure StepOut (α : Type) where
  result : Except PyError α
  client : Client
  log : List LogEntry
  trace : List HttpRequest

namespace Squarespace

/-- Module-level default `api_baseurl` from the source. -/
def default_api_baseurl : String := "https://api.squarespace.com"

/-- Module-level default `api_version` from the source. -/
def default_api_version : String := "0.1"

/-- Default `tracking_baseurl` argument of the constructor. -/
def default_tracking_baseurl : String :=
  "https://tools.usps.com/go/TrackConfirmAction?tLabels="

/-- The library version string `__VERSION__`. -/
def VERSION : String := "0.0.3"

/-- The default user agent set by the constructor. -/
def default_useragent : String :=
  "Squarespace python API v" ++ VERSION ++ " by Zach White."

/-- Setter for the `useragent` property: stores the string and updates the
session header `User-Agent`. -/
def set_useragent (c : Client) (agent_string : String) : Client :=
  { c with
    _useragent := agent_string
    headers := setHeader c.headers "User-Agent" agent_string }

/-- Constructor `Squarespace.__init__`: records the configuration, creates
the session with the bearer `Authorization` header, sets the default user
agent, clears the pagination cursor and sets `max_pages` to 20. -/
def init (api_key api_baseurl api_version tracking_baseurl : String) : Client :=
  set_useragent
    { api_key := api_key
      api_baseurl := api_baseurl
      api_version := api_version
      tracking_baseurl := tracking_baseurl
      _useragent := ""
      headers := setHeader [] "Authorization" ("Bearer " ++ api_key)
      _next_page := .null
      max_pages := 20 }
    default_useragent

/-- Classifier `process_request`: returns the parsed body on 200/201,
`True` on 204, and otherwise raises, logging warnings for unexpected 2xx
codes and status/URL/body for everything else. -/
def process_request (c : Client) (r : Response) :
    Except PyError JValue × List LogEntry :=
  if r.status_code = 200 ∨ r.status_code = 201 then
    (.ok r.json, [])
  else if r.status_code = 204 then
    (.ok (.bool true), [])
  else if r.status_code = 401 then
    (.error (.valueError "The API key %s is not valid." c.api_key), [])
  else if 200 < r.status_code ∧ r.status_code < 299 then
    (.error (.notImplementedError
        "Squarespace sent us a success response we're not prepared for!"),
     [.warnStatus r.status_code, .warnText r.text])
  else
    let lg : List LogEntry := [.errStatus r.status_code, .errUrl r.url, .errText r.text]
    if 400 ≤ r.status_code ∧ r.status_code < 499 then
      (.error (.runtimeError "Squarespace thinks this request is bogus"), lg)
    else if 500 ≤ r.status_code ∧ r.status_code < 599 then
      (.error (.runtimeError "Squarespace is having problems, try later."), lg)
    else
      (.error (.runtimeError "An unknown error occurred fetching your request."), lg)

/-- URL construction shared by `get` and `post`:
the Python format string is baseurl/version/path. -/
def mkUrl (c : Client) (path : String) : String :=
  c.api_baseurl ++ "/" ++ c.api_version ++ "/" ++ path

/-- The GET request object built inside `Squarespace.get`. -/
def getRequest (c : Client) (path : String) (args : List (String × JValue)) :
    HttpRequest :=
  { method := .get, url := mkUrl c path, params := args, body := .null }

/-- The POST request object built inside `Squarespace.post`. -/
def postRequest (c : Client) (path : String) (object : JValue) : HttpRequest :=
  { method := .post, url := mkUrl c path, params := [], body := object }

/-- Method `get`: builds the URL, logs a debug line, issues the request and
classifies the response.  The client state is not modified. -/
def get (srv : Server) (c : Client) (path : String)
    (args : List (String × JValue)) : StepOut JValue :=
  let req := getRequest c path args
  let pr := process_request c (srv req)
  { result := pr.1
    client := c
    log := .debugGet req.url args :: pr.2
    trace := [req] }

/-- Method `post`: builds the URL, logs a debug line, issues the request
and classifies the response.  The client state is not modified. -/
def post (srv : Server) (c : Client) (path : String) (object : JValue) :
    StepOut JValue :=
  let req := postRequest c path object
  let pr := process_request c (srv req)
  { result := pr.1
    client := c
    log := .debugPost req.url object :: pr.2
    trace := [req] }

/-- Method `orders`: GETs `commerce/orders`, stores
`result['pagination']['nextPageCursor']` into the cursor field when the
key is present (otherwise `None`), and returns `result['result']`.
The dynamic lookups raise `KeyError`/`TypeError` exactly where the Python
subscripts would. -/
def orders (srv : Server) (c : Client) (args : List (String × JValue)) :
    StepOut JValue :=
  let o := get srv c "commerce/orders" args
  match o.result with
  | .error e => { o with result := .error e }
  | .ok v =>
    match jSub v "pagination" with
    | .error e => { o with result := .error e }
    | .ok pag =>
      match pyIn "nextPageCursor" pag with
      | .error e => { o with result := .error e }
      | .ok mem =>
        match (if mem then jSub pag "nextPageCursor" else .ok .null) with
        | .error e => { o with result := .error e }
        | .ok cur =>
          let c2 := { o.client with _next_page := cur }
          match jSub v "result" with
          | .error e => { o with result := .error e, client := c2 }
          | .ok res => { o with result := .ok res, client := c2 }

/-- Method `next_page`: calls `orders` with the held cursor when the
cursor is truthy; otherwise returns `None` without any network call. -/
def next_page (srv : Server) (c : Client) : StepOut JValue :=
  if pyTruthy c._next_page then
    orders srv c [("cursor", c._next_page)]
  else
    { result := .ok .null, client := c, log := [], trace := [] }

/-- The final allowed iteration of the `while self._next_page:` loop of
`all_orders` (the case in which `count >= self.max_pages` fires right
after the fetch): fetches one page, extends the accumulator, logs the
max-pages warning and stops. -/
def all_orders_last (srv : Server) (c : Client) (acc : List JValue) :
    StepOut (List JValue) :=
  if pyTruthy c._next_page then
    let o := next_page srv c
    match o.result with
    | .error e =>
      { result := .error e, client := o.client, log := o.log, trace := o.trace }
    | .ok page =>
      match pyExtend acc page with
      | .error e =>
        { result := .error e, client := o.client, log := o.log, trace := o.trace }
      | .ok acc2 =>
        { result := .ok acc2, client := o.client
          log := o.log ++ [.warnMaxPages o.client.max_pages]
          trace := o.trace }
  else
    { result := .ok acc, client := c, log := [], trace := [] }

/-- The `while self._next_page:` loop of `all_orders`, with the loop
counter replaced by the number `r` of iterations still allowed before the
`count >= self.max_pages` test fires (initially `r = max_pages`, and the
Python test `count + 1 >= max_pages` becomes `r ≤ 1`, handled by
`all_orders_last`).  Each iteration fetches a page with `next_page`,
extends the accumulator, and either breaks with a warning when the cap is
hit or continues. -/
def all_orders_loop (srv : Server) : Nat → Client → List JValue →
    StepOut (List JValue)
  | 0, c, acc => all_orders_last srv c acc
  | 1, c, acc => all_orders_last srv c acc
  | r2 + 2, c, acc =>
    if pyTruthy c._next_page then
      let o := next_page srv c
      match o.result with
      | .error e =>
        { result := .error e, client := o.client, log := o.log, trace := o.trace }
      | .ok page =>
        match pyExtend acc page with
        | .error e =>
          { result := .error e, client := o.client, log := o.log, trace := o.trace }
        | .ok acc2 =>
          let rest := all_orders_loop srv (r2 + 1) o.client acc2
          { result := rest.result, client := rest.client
            log := o.log ++ rest.log, trace := o.trace ++ rest.trace }
    else
      { result := .ok acc, client := c, log := [], trace := [] }

/-- Method `all_orders`: fetches the first page with `orders()` and then
runs the pagination loop.  When the loop is entered the first page must be
a Python list (it is the receiver of `.extend`); when the cursor is
already exhausted the first page is returned unchanged. -/
def all_orders (srv : Server) (c : Client) : StepOut JValue :=
  let o := orders srv c []
  match o.result with
  | .error e => { o with result := .error e }
  | .ok v =>
    if pyTruthy o.client._next_page then
      match v with
      | .arr l =>
        let rest := all_orders_loop srv o.client.max_pages o.client l
        { result := rest.result.map .arr, client := rest.client
          log := o.log ++ rest.log, trace := o.trace ++ rest.trace }
      | _ =>
        { o with
          result := .error (.attributeError "object has no attribute extend") }
    else
      { o with result := .ok v }

/-- One step of the `for order in self.all_orders():` scan of
`order(order_number=...)`: the subscript `order['orderNumber']` followed
by the Python equality test against the given string. -/
def scan_orders (l : List JValue) (order_number : String) :
    Except PyError JValue :=
  match l with
  | [] => .ok .null
  | o :: rest =>
    match jSub o "orderNumber" with
    | .error e => .error e
    | .ok v =>
      if (match v with | .str s => s == order_number | _ => false) then
        .ok o
      else
        scan_orders rest order_number

/-- Python iteration of the `for` loop in `order`: a list is scanned
element by element; a string or dict would feed its characters or keys to
the subscript, which raises `TypeError` unless the iterable is empty (in
which case the loop body never runs and the method returns `None`);
anything else is not iterable. -/
def for_orders (v : JValue) (order_number : String) : Except PyError JValue :=
  match v with
  | .arr l => scan_orders l order_number
  | .str s => if s == "" then .ok .null else .error (.typeError "string indices must be integers")
  | .obj l => if l.isEmpty then .ok .null else .error (.typeError "string indices must be integers")
  | _ => .error (.typeError "object is not iterable")

/-- Method `order`: a truthy `order_id` GETs the order directly, otherwise
a truthy `order_number` scans `all_orders()` for the first order whose
`orderNumber` equals it (returning `None` when there is no match), and
otherwise a `SquarespaceError` is raised without any network call. -/
def order (srv : Server) (c : Client)
    (order_id order_number : Option String) : StepOut JValue :=
  if optTruthy order_id then
    get srv c ("commerce/orders/" ++ order_id.getD "") []
  else if optTruthy order_number then
    let o := all_orders srv c
    match o.result with
    | .error e => { o with result := .error e }
    | .ok v => { o with result := for_orders v (order_number.getD "") }
  else
    { result := .error (.squarespaceError
        "You must specify one of `order_id` or `order_number`")
      client := c, log := [], trace := [] }

end Squarespace

/-- A broken-down UTC time as returned by `time.gmtime()` (year is the
full year, month and day are 1-based). -/
structure Tm where
  tm_year : Nat
  tm_mon : Nat
  tm_mday : Nat
  tm_hour : Nat
  tm_min : Nat
  tm_sec : Nat
  deriving Repr, DecidableEq

/-- Little-endian decimal digits of a natural number, with explicit fuel
so that the definition is structurally recursive. -/
def decDigitsAux : Nat → Nat → List Nat
  | 0, _ => []
  | fuel + 1, n => if n < 10 then [n] else n % 10 :: decDigitsAux fuel (n / 10)

/-- Decimal representation of a natural number, modelling the `%d`-style
conversions of C `strftime`. -/
def natDecimal (n : Nat) : String :=
  String.mk ((decDigitsAux (n + 1) n).reverse.map Nat.digitChar)

/-- Zero-padded two-digit decimal conversion, modelling `%m`, `%d`, `%H`,
`%M` and `%S` of `strftime` (which zero-pad to width 2). -/
def pad2 (n : Nat) : String :=
  if n < 10 then String.mk [Char.ofNat 48, Nat.digitChar n] else natDecimal n

/-- The ship-date string built by
`strftime('%Y-%m-%dT%H:%M:%SZ', gmtime())`. -/
def strftimeShipDate (t : Tm) : String :=
  natDecimal t.tm_year ++ "-" ++ pad2 t.tm_mon ++ "-" ++ pad2 t.tm_mday ++
    "T" ++ pad2 t.tm_hour ++ ":" ++ pad2 t.tm_min ++ ":" ++ pad2 t.tm_sec ++ "Z"

/-- Checks that a string has the shape YYYY-MM-DDTHH:MM:SSZ, with a digit
at every letter position. -/
def isShipDatePattern (s : String) : Bool :=
  match s.data with
  | [y1, y2, y3, y4, d1, m1, m2, d2, a1, a2, t1, h1, h2, c1, n1, n2, c2, s1, s2, z1] =>
    y1.isDigit && y2.isDigit && y3.isDigit && y4.isDigit && d1 == '-' &&
    m1.isDigit && m2.isDigit && d2 == '-' && a1.isDigit && a2.isDigit &&
    t1 == 'T' && h1.isDigit && h2.isDigit && c1 == ':' && n1.isDigit &&
    n2.isDigit && c2 == ':' && s1.isDigit && s2.isDigit && z1 == 'Z'
  | _ => false

namespace Squarespace

/-- The fulfillment payload dictionary literal built inside `fulfill`,
with the current time passed explicitly. -/
def fulfillmentBody (now : Tm) (tracking_number carrier_name service_name : String)
    (tb : String) : JValue :=
  .obj [
    ("shouldSendNotification", .bool true),
    ("shipments", .arr [
      .obj [
        ("shipDate", .str (strftimeShipDate now)),
        ("carrierName", .str carrier_name),
        ("service", .str service_name),
        ("trackingNumber", .str tracking_number),
        ("trackingUrl", .str (tb ++ tracking_number))
      ]
    ])
  ]

/-- Method `fulfill`: falls back to the configured tracking template when
the argument is falsy, builds the fulfillment payload (with the wall-clock
time `now` passed explicitly in place of `gmtime()`), and POSTs it to
`commerce/orders/{order_id}/fulfillments`. -/
def fulfill (srv : Server) (now : Tm) (c : Client)
    (order_id tracking_number carrier_name service_name : String)
    (tracking_baseurl : Option String) : StepOut JValue :=
  let tb :=
    if optTruthy tracking_baseurl then tracking_baseurl.getD "" else c.tracking_baseurl
  let uri := "commerce/orders/" ++ order_id ++ "/fulfillments"
  post srv c uri (fulfillmentBody now tracking_number carrier_name service_name tb)

end Squarespace

/-- A response envelope for `GET commerce/orders`, as described by the
remote API: a page of results plus pagination metadata. -/
def envelope (page : List JValue) (cursor : JValue) : JValue :=
  .obj [("result", .arr page), ("pagination", .obj [("nextPageCursor", cursor)])]

/-- A response envelope whose pagination object lacks the
`nextPageCursor` key. -/
def envelopeNoCursor (page : List JValue) : JValue :=
  .obj [("result", .arr page), ("pagination", .obj [])]

/-- A concrete client used to instantiate the universally quantified
theorems below. -/
def sampleClient : Client :=
  Squarespace.init "SAMPLEKEY" Squarespace.default_api_baseurl
    Squarespace.default_api_version Squarespace.default_tracking_baseurl

/-- C5: for every HTTP response with status 200 or 201 the classifier
returns the parsed JSON body unchanged, and for every response with
status 204 it returns boolean true regardless of the body content. -/
theorem process_request_success (c : Client) (r : Response) :
    (r.status_code = 200 ∨ r.status_code = 201 →
      Squarespace.process_request c r = (.ok r.json, [])) ∧
    (r.status_code = 204 →
      Squarespace.process_request c r = (.ok (.bool true), [])) := by
  constructor
  · intro h
    simp [Squarespace.process_request, h]
  · intro h
    simp [Squarespace.process_request, h]

/-- C5 witness: the classifier evaluated on a concrete 200 response and a
concrete 204 response. -/
theorem process_request_success_witness :
    Squarespace.process_request sampleClient
      { status_code := 200, json := .obj [("a", .num 1)], text := "", url := "u" } =
      (.ok (.obj [("a", .num 1)]), []) ∧
    Squarespace.process_request sampleClient
      { status_code := 204, json := .str "ignored", text := "ignored", url := "u" } =
      (.ok (.bool true), []) :=
  ⟨(process_request_success sampleClient
      { status_code := 200, json := .obj [("a", .num 1)], text := "", url := "u" }).1
      (Or.inl rfl),
   (process_request_success sampleClient
      { status_code := 204, json := .str "ignored", text := "ignored", url := "u" }).2
      rfl⟩

/-- C7: calling order with neither an order_id nor an order_number
selector raises the missing-selector SquarespaceError and issues no HTTP
request. -/
theorem order_no_selector (srv : Server) (c : Client) :
    Squarespace.order srv c none none =
      { result := .error (.squarespaceError
          "You must specify one of `order_id` or `order_number`")
        client := c, log := [], trace := [] } := rfl

/-- C10: the selectors of order are tested by truthiness, not presence:
an empty-string order_id behaves exactly as an absent one, falling
through to the order_number scan when that is given and raising the
missing-selector error when it is not, with no HTTP request issued for
the empty id. -/
theorem order_empty_id_truthiness (srv : Server) (c : Client) :
    (∀ order_number, Squarespace.order srv c (some "") order_number =
        Squarespace.order srv c none order_number) ∧
    (Squarespace.order srv c (some "") none).result =
      .error (.squarespaceError
        "You must specify one of `order_id` or `order_number`") ∧
    (Squarespace.order srv c (some "") none).trace = [] :=
  ⟨fun _ => rfl, rfl, rfl⟩

/-- C3 counterexample: construction with the empty API key does not fail;
it returns an ordinary client whose session holds the bearer header
derived from the empty key. -/
theorem init_empty_key_succeeds :
    Squarespace.init "" Squarespace.default_api_baseurl
        Squarespace.default_api_version Squarespace.default_tracking_baseurl =
      { api_key := ""
        api_baseurl := Squarespace.default_api_baseurl
        api_version := Squarespace.default_api_version
        tracking_baseurl := Squarespace.default_tracking_baseurl
        _useragent := Squarespace.default_useragent
        headers := [("Authorization", "Bearer "),
                    ("User-Agent", Squarespace.default_useragent)]
        _next_page := .null
        max_pages := 20 } := rfl

/-- C3 amended: client construction never fails; for every key, empty or
not, it initializes the session with the bearer-authorization header
derived from the key (plus the default user agent), a cleared pagination
cursor, and the default page cap. -/
theorem init_always_succeeds (api_key api_baseurl api_version tracking_baseurl : String) :
    Squarespace.init api_key api_baseurl api_version tracking_baseurl =
      { api_key := api_key
        api_baseurl := api_baseurl
        api_version := api_version
        tracking_baseurl := tracking_baseurl
        _useragent := Squarespace.default_useragent
        headers := [("Authorization", "Bearer " ++ api_key),
                    ("User-Agent", Squarespace.default_useragent)]
        _next_page := .null
        max_pages := 20 } := rfl

/-- C2 counterexample: a response with status 499 raises the
unknown-error RuntimeError, not the 4xx client-request RuntimeError, so
the claimed 400 to 499 range is off by one (and likewise 599 raises the
unknown-error RuntimeError rather than the 5xx one). -/
theorem process_request_499_unknown :
    Squarespace.process_request sampleClient
      { status_code := 499, json := .null, text := "boom", url := "u" } =
      (.error (.runtimeError "An unknown error occurred fetching your request."),
       [.errStatus 499, .errUrl "u", .errText "boom"]) ∧
    (Squarespace.process_request sampleClient
      { status_code := 499, json := .null, text := "boom", url := "u" }).1 ≠
      .error (.runtimeError "Squarespace thinks this request is bogus") ∧
    (Squarespace.process_request sampleClient
      { status_code := 599, json := .null, text := "boom", url := "u" }).1 =
      .error (.runtimeError "An unknown error occurred fetching your request.") := by
  refine ⟨rfl, ?_, rfl⟩
  intro h
  rw [show (Squarespace.process_request sampleClient
      { status_code := 499, json := .null, text := "boom", url := "u" }).1 =
      .error (.runtimeError "An unknown error occurred fetching your request.")
    from rfl] at h
  simp only [Except.error.injEq, PyError.runtimeError.injEq] at h
  exact absurd h (by decide)

/-- C2 amended: for every status in 400 to 498 other than 401 the
classifier raises the client-request RuntimeError, for every status in
500 to 598 it raises the server RuntimeError (the two are distinguishable
by their messages only, both being RuntimeError), and for 499 and 599 it
raises the unknown-error RuntimeError; in each case it first logs the
status, the URL and the body. -/
theorem process_request_4xx_5xx (c : Client) (r : Response) :
    (400 ≤ r.status_code → r.status_code < 499 → r.status_code ≠ 401 →
      Squarespace.process_request c r =
        (.error (.runtimeError "Squarespace thinks this request is bogus"),
         [.errStatus r.status_code, .errUrl r.url, .errText r.text])) ∧
    (500 ≤ r.status_code → r.status_code < 599 →
      Squarespace.process_request c r =
        (.error (.runtimeError "Squarespace is having problems, try later."),
         [.errStatus r.status_code, .errUrl r.url, .errText r.text])) ∧
    (r.status_code = 499 ∨ r.status_code = 599 →
      Squarespace.process_request c r =
        (.error (.runtimeError "An unknown error occurred fetching your request."),
         [.errStatus r.status_code, .errUrl r.url, .errText r.text])) := by
  refine ⟨fun h1 h2 h3 => ?_, fun h1 h2 => ?_, fun h => ?_⟩ <;>
    · unfold Squarespace.process_request
      rw [if_neg (by omega), if_neg (by omega), if_neg (by omega), if_neg (by omega)]
      split
      · first | rfl | (exfalso; omega)
      · split
        · first | rfl | (exfalso; omega)
        · first | rfl | (exfalso; omega)

/-- C2 witness: the amended classification evaluated at statuses 418, 503
and 499. -/
theorem process_request_4xx_5xx_witness :
    Squarespace.process_request sampleClient
      { status_code := 418, json := .null, text := "teapot", url := "u" } =
      (.error (.runtimeError "Squarespace thinks this request is bogus"),
       [.errStatus 418, .errUrl "u", .errText "teapot"]) ∧
    Squarespace.process_request sampleClient
      { status_code := 503, json := .null, text := "down", url := "u" } =
      (.error (.runtimeError "Squarespace is having problems, try later."),
       [.errStatus 503, .errUrl "u", .errText "down"]) ∧
    Squarespace.process_request sampleClient
      { status_code := 499, json := .null, text := "odd", url := "u" } =
      (.error (.runtimeError "An unknown error occurred fetching your request."),
       [.errStatus 499, .errUrl "u", .errText "odd"]) :=
  ⟨(process_request_4xx_5xx sampleClient
      { status_code := 418, json := .null, text := "teapot", url := "u" }).1
      (by decide) (by decide) (by decide),
   (process_request_4xx_5xx sampleClient
      { status_code := 503, json := .null, text := "down", url := "u" }).2.1
      (by decide) (by decide),
   (process_request_4xx_5xx sampleClient
      { status_code := 499, json := .null, text := "odd", url := "u" }).2.2
      (Or.inl rfl)⟩

/-- A concrete server that always answers 200 with a one-order page and a
non-empty nextPageCursor. -/
def sampleServer : Server := fun req =>
  { status_code := 200
    json := envelope [.obj [("orderNumber", .str "1001")]] (.str "CURSOR")
    text := ""
    url := req.url }

/-- C9: the pagination cursor is mutated only by the list operation; get,
post, fulfill, order with a (truthy) order_id, and setting the user agent
all leave the cursor unchanged (the first four leave the whole client
state unchanged). -/
theorem cursor_only_mutated_by_orders (srv : Server) (c : Client)
    (path : String) (args : List (String × JValue)) (object : JValue)
    (now : Tm) (oid tn cn sn : String) (tb : Option String)
    (agent : String) (onum : Option String) :
    oid ≠ "" →
    (Squarespace.get srv c path args).client = c ∧
    (Squarespace.post srv c path object).client = c ∧
    (Squarespace.fulfill srv now c oid tn cn sn tb).client = c ∧
    (Squarespace.order srv c (some oid) onum).client = c ∧
    (Squarespace.set_useragent c agent)._next_page = c._next_page := by
  intro h
  refine ⟨rfl, rfl, rfl, ?_, rfl⟩
  simp [Squarespace.order, optTruthy, h, Squarespace.get]

/-- C9 witness: the frame property evaluated on concrete inputs. -/
theorem cursor_only_mutated_by_orders_witness :
    (Squarespace.get sampleServer sampleClient "p" []).client = sampleClient ∧
    (Squarespace.post sampleServer sampleClient "p" .null).client = sampleClient ∧
    (Squarespace.fulfill sampleServer ⟨2026, 1, 1, 0, 0, 0⟩ sampleClient
        "123" "TRK" "USPS" "First Class" none).client = sampleClient ∧
    (Squarespace.order sampleServer sampleClient (some "123") none).client =
      sampleClient ∧
    (Squarespace.set_useragent sampleClient "agent")._next_page =
      sampleClient._next_page :=
  cursor_only_mutated_by_orders sampleServer sampleClient "p" [] .null
    ⟨2026, 1, 1, 0, 0, 0⟩ "123" "TRK" "USPS" "First Class" none "agent" none
    (by decide)

/-- C4: when the envelope of an orders response has a pagination object
without the nextPageCursor key, orders returns the result page, clears
the held cursor to None, and a subsequent next_page call returns None
without issuing any HTTP request. -/
theorem orders_no_cursor_clears (srv : Server) (c : Client)
    (args : List (String × JValue)) (res : JValue)
    (pag : List (String × JValue)) :
    (srv (Squarespace.getRequest c "commerce/orders" args)).status_code = 200 →
    (srv (Squarespace.getRequest c "commerce/orders" args)).json =
      .obj [("result", res), ("pagination", .obj pag)] →
    pag.any (fun kv => kv.1 == "nextPageCursor") = false →
    (Squarespace.orders srv c args).result = .ok res ∧
    (Squarespace.orders srv c args).client = { c with _next_page := .null } ∧
    Squarespace.next_page srv (Squarespace.orders srv c args).client =
      { result := .ok .null
        client := (Squarespace.orders srv c args).client
        log := [], trace := [] } := by
  intro h200 hjson hpag
  have horders : Squarespace.orders srv c args =
      { result := .ok res
        client := { c with _next_page := .null }
        log := [.debugGet (Squarespace.mkUrl c "commerce/orders") args]
        trace := [Squarespace.getRequest c "commerce/orders" args] } := by
    simp only [Squarespace.getRequest] at h200 hjson
    simp [Squarespace.orders, Squarespace.get, Squarespace.process_request,
      h200, hjson, jSub, pyIn, hpag, List.find?, Squarespace.getRequest]
  refine ⟨by rw [horders], by rw [horders], ?_⟩
  rw [horders]
  rfl

/-- A concrete server that always answers 200 with a one-order page and
no nextPageCursor key in the pagination object. -/
def sampleServerNoCursor : Server := fun req =>
  { status_code := 200
    json := envelopeNoCursor [.obj [("orderNumber", .str "1001")]]
    text := ""
    url := req.url }

/-- C4 witness: the cursor-clearing property evaluated on a concrete
server whose envelope lacks the cursor key. -/
theorem orders_no_cursor_clears_witness :
    (Squarespace.orders sampleServerNoCursor sampleClient []).result =
      .ok (.arr [.obj [("orderNumber", .str "1001")]]) ∧
    (Squarespace.orders sampleServerNoCursor sampleClient []).client =
      { sampleClient with _next_page := .null } ∧
    Squarespace.next_page sampleServerNoCursor
        (Squarespace.orders sampleServerNoCursor sampleClient []).client =
      { result := .ok .null
        client := (Squarespace.orders sampleServerNoCursor sampleClient []).client
        log := [], trace := [] } :=
  orders_no_cursor_clears sampleServerNoCursor sampleClient []
    (.arr [.obj [("orderNumber", .str "1001")]]) [] rfl rfl rfl

/-- C6: with no order_id and a (truthy) order_number, order scans the
orders returned by all_orders and returns the first order whose
orderNumber field equals the given number, or None when no fetched page
contains a match. -/
theorem order_by_number_scans (srv : Server) (c : Client) (n : String)
    (l : List JValue) :
    n ≠ "" →
    (Squarespace.all_orders srv c).result = .ok (.arr l) →
    (∀ o ∈ l, ∃ v, jSub o "orderNumber" = .ok v) →
    (Squarespace.order srv c none (some n)).result =
      .ok ((l.find? (fun o =>
        match jSub o "orderNumber" with
        | .ok (.str s) => s == n
        | _ => false)).getD .null) := by
  intro hn hall ho
  have hscan : ∀ (l : List JValue),
      (∀ o ∈ l, ∃ v, jSub o "orderNumber" = .ok v) →
      Squarespace.scan_orders l n = .ok ((l.find? (fun o =>
        match jSub o "orderNumber" with
        | .ok (.str s) => s == n
        | _ => false)).getD .null) := by
    intro m
    induction m with
    | nil => intro _; rfl
    | cons o rest ih =>
      intro h
      obtain ⟨v, hv⟩ := h o (List.mem_cons_self o rest)
      have htl : ∀ o ∈ rest, ∃ v, jSub o "orderNumber" = .ok v :=
        fun x hx => h x (List.mem_cons_of_mem o hx)
      simp only [Squarespace.scan_orders, hv, List.find?]
      cases v with
      | str s =>
        cases hs : s == n with
        | true => simp [hs]
        | false => simp [hs, ih htl]
      | null => simp [ih htl]
      | bool b => simp [ih htl]
      | num m => simp [ih htl]
      | arr a => simp [ih htl]
      | obj a => simp [ih htl]
  simp only [Squarespace.order, optTruthy]
  rw [if_neg (by simp), if_pos (by simp [hn]), hall]
  exact hscan l ho

/-- C6 witness: the scan evaluated on a concrete one-page server, both
for a matching order number and for an absent one. -/
theorem order_by_number_scans_witness :
    (Squarespace.order sampleServerNoCursor sampleClient none
        (some "1001")).result = .ok (.obj [("orderNumber", .str "1001")]) ∧
    (Squarespace.order sampleServerNoCursor sampleClient none
        (some "9999")).result = .ok .null :=
  ⟨order_by_number_scans sampleServerNoCursor sampleClient "1001"
      [.obj [("orderNumber", .str "1001")]] (by decide) rfl
      (by
        intro o hmem
        simp only [List.mem_singleton] at hmem
        subst hmem
        exact ⟨.str "1001", rfl⟩),
   order_by_number_scans sampleServerNoCursor sampleClient "9999"
      [.obj [("orderNumber", .str "1001")]] (by decide) rfl
      (by
        intro o hmem
        simp only [List.mem_singleton] at hmem
        subst hmem
        exact ⟨.str "1001", rfl⟩)⟩

/-- A concrete client whose max_pages cap is 3. -/
def clientMax3 : Client := { sampleClient with max_pages := 3 }

/-- C1 counterexample: with max_pages set to 3 and a server that always
reports a nextPageCursor, all_orders performs 4 page fetches (the
initial orders call plus three loop iterations), not 3 as claimed. -/
theorem all_orders_max3_four_fetches :
    (Squarespace.all_orders sampleServer clientMax3).trace.length = 4 ∧
    (Squarespace.all_orders sampleServer clientMax3).trace.length ≠ 3 :=
  ⟨rfl, by decide⟩

/-- Behaviour of orders against a server that always answers 200 with a
well-formed envelope. -/
theorem orders_envelope (srv : Server) (page : HttpRequest → List JValue)
    (cur : HttpRequest → JValue)
    (h200 : ∀ req, (srv req).status_code = 200)
    (hjson : ∀ req, (srv req).json = envelope (page req) (cur req))
    (c : Client) (args : List (String × JValue)) :
    Squarespace.orders srv c args =
      { result := .ok (.arr (page (Squarespace.getRequest c "commerce/orders" args)))
        client := { c with
          _next_page := cur (Squarespace.getRequest c "commerce/orders" args) }
        log := [.debugGet (Squarespace.mkUrl c "commerce/orders") args]
        trace := [Squarespace.getRequest c "commerce/orders" args] } := by
  simp [Squarespace.orders, Squarespace.get, Squarespace.process_request,
    h200, hjson, envelope, jSub, pyIn, List.find?, Squarespace.getRequest]

/-- Behaviour of the pagination loop against a server that always
answers 200 with an envelope carrying a truthy cursor: with r + 1
iterations allowed it performs exactly r + 1 fetches, appends the pages
in order, and logs the max-pages warning. -/
theorem all_orders_loop_always (srv : Server) (page : HttpRequest → List JValue)
    (cur : HttpRequest → JValue)
    (h200 : ∀ req, (srv req).status_code = 200)
    (hjson : ∀ req, (srv req).json = envelope (page req) (cur req))
    (hcur : ∀ req, pyTruthy (cur req) = true) :
    ∀ (r : Nat) (c : Client) (acc : List JValue),
      pyTruthy c._next_page = true →
      ∃ reqs : List HttpRequest,
        reqs.length = r + 1 ∧
        (Squarespace.all_orders_loop srv (r + 1) c acc).trace = reqs ∧
        (Squarespace.all_orders_loop srv (r + 1) c acc).result =
          .ok (acc ++ (reqs.map page).flatten) ∧
        LogEntry.warnMaxPages c.max_pages ∈
          (Squarespace.all_orders_loop srv (r + 1) c acc).log := by
  intro r
  induction r with
  | zero =>
    intro c acc htr
    refine ⟨[Squarespace.getRequest c "commerce/orders" [("cursor", c._next_page)]],
      rfl, ?_, ?_, ?_⟩ <;>
      simp [Squarespace.all_orders_loop, Squarespace.all_orders_last,
        Squarespace.next_page, htr,
        orders_envelope srv page cur h200 hjson, pyExtend]
  | succ k ih =>
    intro c acc htr
    have hone := orders_envelope srv page cur h200 hjson c [("cursor", c._next_page)]
    have hnext : Squarespace.next_page srv c =
        Squarespace.orders srv c [("cursor", c._next_page)] := by
      simp [Squarespace.next_page, htr]
    obtain ⟨reqs, hlen, htrace, hres, hlog⟩ :=
      ih ({ c with _next_page := cur (Squarespace.getRequest c "commerce/orders" [("cursor", c._next_page)]) }) (acc ++ page (Squarespace.getRequest c "commerce/orders" [("cursor", c._next_page)])) (hcur _)
    rw [show k + 1 + 1 = k + 2 from rfl]
    refine ⟨Squarespace.getRequest c "commerce/orders" [("cursor", c._next_page)] :: reqs,
      by simp [hlen], ?_, ?_, ?_⟩ <;>
      simp [Squarespace.all_orders_loop, hnext, hone, pyExtend, htr, htrace, hres, hlog]

/-- C1 amended: with max_pages set to 3 and a server that always reports
a nextPageCursor, all_orders stops after exactly 4 page fetches (the
initial page plus max_pages further fetches, since the loop counter is
checked only after each loop fetch), logs the max-pages warning, and
returns the concatenation of those 4 pages in order; in general the
fetch loop stops when the cursor is exhausted or the loop count reaches
max_pages. -/
theorem all_orders_hits_max_pages (srv : Server)
    (page : HttpRequest → List JValue) (cur : HttpRequest → JValue) (c : Client)
    (h200 : ∀ req, (srv req).status_code = 200)
    (hjson : ∀ req, (srv req).json = envelope (page req) (cur req))
    (hcur : ∀ req, pyTruthy (cur req) = true) :
    ∃ r1 r2 r3 r4,
      (Squarespace.all_orders srv { c with max_pages := 3 }).trace =
        [r1, r2, r3, r4] ∧
      (Squarespace.all_orders srv { c with max_pages := 3 }).result =
        .ok (.arr (page r1 ++ page r2 ++ page r3 ++ page r4)) ∧
      LogEntry.warnMaxPages 3 ∈
        (Squarespace.all_orders srv { c with max_pages := 3 }).log := by
  have hone := orders_envelope srv page cur h200 hjson ({ c with max_pages := 3 }) []
  obtain ⟨reqs, hlen, htrace, hres, hlog⟩ :=
    all_orders_loop_always srv page cur h200 hjson hcur 2
      ({ c with max_pages := 3, _next_page := cur (Squarespace.getRequest ({ c with max_pages := 3 }) "commerce/orders" []) })
      (page (Squarespace.getRequest ({ c with max_pages := 3 }) "commerce/orders" [])) (hcur _)
  rcases reqs with _ | ⟨a, _ | ⟨b, _ | ⟨d, _ | e⟩⟩⟩ <;> simp only [List.length] at hlen <;>
    try omega
  simp only [List.map, List.flatten] at hres
  simp at htrace hres hlog
  refine ⟨Squarespace.getRequest ({ c with max_pages := 3 }) "commerce/orders" [],
    a, b, d, ?_, ?_, ?_⟩ <;>
    simp [Squarespace.all_orders, hone, hcur, htrace, hres, hlog, Except.map]

/-- C1 witness: the amended pagination bound evaluated against the
concrete always-cursor server. -/
theorem all_orders_hits_max_pages_witness :
    ∃ r1 r2 r3 r4,
      (Squarespace.all_orders sampleServer
          { sampleClient with max_pages := 3 }).trace = [r1, r2, r3, r4] ∧
      (Squarespace.all_orders sampleServer
          { sampleClient with max_pages := 3 }).result =
        .ok (.arr [.obj [("orderNumber", .str "1001")],
                   .obj [("orderNumber", .str "1001")],
                   .obj [("orderNumber", .str "1001")],
                   .obj [("orderNumber", .str "1001")]]) ∧
      LogEntry.warnMaxPages 3 ∈
        (Squarespace.all_orders sampleServer
          { sampleClient with max_pages := 3 }).log :=
  all_orders_hits_max_pages sampleServer
    (fun _ => [.obj [("orderNumber", .str "1001")]]) (fun _ => .str "CURSOR")
    sampleClient (fun _ => rfl) (fun _ => rfl) (fun _ => rfl)

/-- Digit characters of decimal digits are recognized by Char.isDigit. -/
theorem digitChar_isDigit : ∀ d, d < 10 → (Nat.digitChar d).isDigit = true := by
  decide

/-- Two-digit expansion of the fueled digit function. -/
theorem decDigitsAux_two (fuel n : Nat) (h1 : 10 ≤ n) (h2 : n < 100)
    (hf : 2 ≤ fuel) : decDigitsAux fuel n = [n % 10, n / 10] := by
  obtain ⟨f, rfl⟩ : ∃ f, fuel = f + 2 := ⟨fuel - 2, by omega⟩
  rw [decDigitsAux, if_neg (by omega), decDigitsAux, if_pos (by omega)]

/-- Four-digit expansion of the fueled digit function. -/
theorem decDigitsAux_four (fuel n : Nat) (h1 : 1000 ≤ n) (h2 : n < 10000)
    (hf : 4 ≤ fuel) :
    decDigitsAux fuel n = [n % 10, n / 10 % 10, n / 10 / 10 % 10, n / 10 / 10 / 10] := by
  obtain ⟨f, rfl⟩ : ∃ f, fuel = f + 4 := ⟨fuel - 4, by omega⟩
  rw [decDigitsAux, if_neg (by omega), decDigitsAux, if_neg (by omega),
    decDigitsAux, if_neg (by omega), decDigitsAux, if_pos (by omega)]

/-- A year between 1000 and 9999 prints as four digit characters. -/
theorem natDecimal_four (n : Nat) (h1 : 1000 ≤ n) (h2 : n < 10000) :
    (natDecimal n).data =
      [Nat.digitChar (n / 10 / 10 / 10), Nat.digitChar (n / 10 / 10 % 10),
       Nat.digitChar (n / 10 % 10), Nat.digitChar (n % 10)] := by
  unfold natDecimal
  rw [decDigitsAux_four (n + 1) n h1 h2 (by omega)]
  rfl

/-- The two-digit padded conversion always prints two digit characters
for inputs below 100. -/
theorem pad2_two (n : Nat) (h : n < 100) :
    ∃ a b, (pad2 n).data = [a, b] ∧ a.isDigit = true ∧ b.isDigit = true := by
  by_cases h10 : n < 10
  · refine ⟨'0', Nat.digitChar n, ?_, rfl, digitChar_isDigit n (by omega)⟩
    unfold pad2
    rw [if_pos h10]
  · refine ⟨Nat.digitChar (n / 10), Nat.digitChar (n % 10), ?_,
      digitChar_isDigit _ (by omega), digitChar_isDigit _ (by omega)⟩
    unfold pad2
    rw [if_neg h10]
    unfold natDecimal
    rw [decDigitsAux_two (n + 1) n (by omega) h (by omega)]
    rfl

/-- The ship-date format string produces a string matching the
YYYY-MM-DDTHH:MM:SSZ pattern for every valid broken-down time. -/
theorem strftimeShipDate_pattern (t : Tm)
    (hy1 : 1000 ≤ t.tm_year) (hy2 : t.tm_year < 10000)
    (hmo : t.tm_mon < 100) (hd : t.tm_mday < 100) (hh : t.tm_hour < 100)
    (hmi : t.tm_min < 100) (hs : t.tm_sec < 100) :
    isShipDatePattern (strftimeShipDate t) = true := by
  obtain ⟨m1, m2, hm, hm1, hm2⟩ := pad2_two t.tm_mon hmo
  obtain ⟨d1, d2, hdd, hd1, hd2⟩ := pad2_two t.tm_mday hd
  obtain ⟨h1, h2, hhd, hh1, hh2⟩ := pad2_two t.tm_hour hh
  obtain ⟨n1, n2, hnd, hn1, hn2⟩ := pad2_two t.tm_min hmi
  obtain ⟨s1, s2, hsd, hs1, hs2⟩ := pad2_two t.tm_sec hs
  have hy := natDecimal_four t.tm_year hy1 hy2
  have hdata : (strftimeShipDate t).data =
      [Nat.digitChar (t.tm_year / 10 / 10 / 10),
       Nat.digitChar (t.tm_year / 10 / 10 % 10),
       Nat.digitChar (t.tm_year / 10 % 10), Nat.digitChar (t.tm_year % 10),
       '-', m1, m2, '-', d1, d2, 'T', h1, h2, ':', n1, n2, ':', s1, s2, 'Z'] := by
    simp [strftimeShipDate, String.data_append, hy, hm, hdd, hhd, hnd, hsd,
      show ("-" : String).data = ['-'] from rfl,
      show ("T" : String).data = ['T'] from rfl,
      show (":" : String).data = [':'] from rfl,
      show ("Z" : String).data = ['Z'] from rfl]
  unfold isShipDatePattern
  rw [hdata]
  simp [hm1, hm2, hd1, hd2, hh1, hh2, hn1, hn2, hs1, hs2,
    digitChar_isDigit _ (Nat.mod_lt _ (by omega)),
    digitChar_isDigit (t.tm_year / 10 / 10 / 10) (by omega)]

/-- C8: fulfill builds a request whose shipments list has exactly one
entry, whose trackingUrl is the effective template (the truthy argument
if given, else the configured one) concatenated with the tracking
number, and whose shipDate matches the YYYY-MM-DDTHH:MM:SSZ pattern; the
request is POSTed to commerce/orders/{order_id}/fulfillments. -/
theorem fulfill_builds_shipment (srv : Server) (now : Tm) (c : Client)
    (oid tn cn sn : String) (tb : Option String)
    (hy1 : 1000 ≤ now.tm_year) (hy2 : now.tm_year < 10000)
    (hmo : now.tm_mon < 100) (hd : now.tm_mday < 100) (hh : now.tm_hour < 100)
    (hmi : now.tm_min < 100) (hs : now.tm_sec < 100)
    (htb : tb = none ∨ ∃ s, tb = some s ∧ s ≠ "") :
    ∃ ship : JValue,
      (Squarespace.fulfill srv now c oid tn cn sn tb).trace =
        [Squarespace.postRequest c ("commerce/orders/" ++ oid ++ "/fulfillments")
          (.obj [("shouldSendNotification", .bool true),
                 ("shipments", .arr [ship])])] ∧
      jSub ship "trackingUrl" = .ok (.str (tb.getD c.tracking_baseurl ++ tn)) ∧
      ∃ ds, jSub ship "shipDate" = .ok (.str ds) ∧
        isShipDatePattern ds = true := by
  have heff : (if optTruthy tb then tb.getD "" else c.tracking_baseurl) =
      tb.getD c.tracking_baseurl := by
    rcases htb with rfl | ⟨s, rfl, hne⟩
    · rfl
    · simp [optTruthy, hne]
  refine ⟨.obj [("shipDate", .str (strftimeShipDate now)),
    ("carrierName", .str cn), ("service", .str sn),
    ("trackingNumber", .str tn),
    ("trackingUrl", .str (tb.getD c.tracking_baseurl ++ tn))], ?_, ?_, ?_⟩
  · simp [Squarespace.fulfill, Squarespace.post, Squarespace.fulfillmentBody, heff]
  · simp [jSub, List.find?]
  · exact ⟨strftimeShipDate now, by simp [jSub, List.find?],
      strftimeShipDate_pattern now hy1 hy2 hmo hd hh hmi hs⟩

/-- C8 witness: the fulfillment payload evaluated at a concrete time,
order and tracking data. -/
theorem fulfill_builds_shipment_witness :
    ∃ ship : JValue,
      (Squarespace.fulfill sampleServer ⟨2026, 10, 12, 3, 4, 5⟩ sampleClient
          "42" "TRK9" "USPS" "First Class" none).trace =
        [Squarespace.postRequest sampleClient "commerce/orders/42/fulfillments"
          (.obj [("shouldSendNotification", .bool true),
                 ("shipments", .arr [ship])])] ∧
      jSub ship "trackingUrl" =
        .ok (.str (Squarespace.default_tracking_baseurl ++ "TRK9")) ∧
      ∃ ds, jSub ship "shipDate" = .ok (.str ds) ∧
        isShipDatePattern ds = true :=
  fulfill_builds_shipment sampleServer ⟨2026, 10, 12, 3, 4, 5⟩ sampleClient
    "42" "TRK9" "USPS" "First Class" none (by decide) (by decide) (by decide)
    (by decide) (by decide) (by decide) (by decide) (Or.inl rfl)
